import Mathlib

/-!
Shallow embedding of `audio_dictor.py`: a single-file Telegram channel
watcher that synthesizes each new text message to speech, writes a WAV
intermediate, transcodes it to MP3 with an external FFmpeg process, deletes
the WAV, and sends the MP3 to a target chat.

External effects (Telegram calls, the TTS model, the filesystem, the
FFmpeg subprocess) are modelled by an environment record `Env` that fixes
the outcome of each effectful call of one handler run; the handler is then
a pure function from the event and the environment to a `RunResult`
describing the run's terminal outcome, the files it leaves on disk, and
the delivery calls it makes.
-/

namespace AudioDictor

/-- An entity returned by `client.get_entity(chat_id)`.  `title`/`username`
are `none` when the Python object lacks that attribute (the `getattr`
defaults in the source). -/
structure Entity where
  title : Option String
  username : Option String
  deriving DecidableEq

/-- Outcome of the `tts_pipeline(message_text)` call.  `ok` carries the
sample buffer already normalized to one dimension (the `.squeeze()` on
line 90 of the source) and the integer sampling rate. -/
inductive TTSResult where
  | raises
  | ok (samples : List ℚ) (samplingRate : Int)
  deriving DecidableEq

/-- Outcome of the `subprocess.run([FFMPEG_PATH, "-i", wav, mp3], check=True, ...)`
call: `notFound` models `FileNotFoundError` (the tool path resolves to no
executable), `fails` models `CalledProcessError` (non-zero exit) carrying
the captured standard error, `ok` a zero exit. -/
inductive FfmpegResult where
  | notFound
  | fails (stderr : String)
  | ok
  deriving DecidableEq

/-- The outcomes of all effectful calls made during one run of
`handler_new_message`, fixed up front so the handler is a pure function.
`time` is the value of `time.time()` at the moment the file name is
derived (line 95); `fileExistsAfterWrite` is the `os.path.exists` result
on line 105; `waveOpenOk` whether `wave.open` on line 111 succeeds;
`readable` the `os.access(..., os.R_OK)` result; `removeOk` whether
`os.remove(wav_filepath)` succeeds; `targetResolves` whether
`client.get_entity(TARGET_CHAT_ENTITY)` succeeds; `sendFileOk` whether the
`client.send_file` call succeeds. -/
structure Env where
  entity : Option Entity
  text : Option String
  tts : TTSResult
  time : ℚ
  fileExistsAfterWrite : Bool
  waveOpenOk : Bool
  readable : Bool
  ffmpeg : FfmpegResult
  removeOk : Bool
  targetResolves : Bool
  sendFileOk : Bool
  deriving DecidableEq

/-- The identity of the inbound event: `event.chat_id` and `event.id`. -/
structure EventInfo where
  chatId : Int
  messageId : Nat
  deriving DecidableEq

/-- Terminal outcome of one handler run.  Each failure constructor records
the stage whose check made the handler `return` early; `failedToolExec`
carries the tool's captured standard error (the diagnostic the source logs
on line 132). -/
inductive Outcome where
  | skippedNoText
  | failedSynthesis
  | failedEmptyOutput
  | failedWriteMissing
  | failedWaveOpen
  | failedPermission
  | failedToolNotFound
  | failedToolExec (stderr : String)
  | failedSend
  | delivered
  deriving DecidableEq

/-- One `client.send_file` invocation: the file path handed over and the
caption attached to it. -/
structure Delivery where
  path : String
  caption : String
  deriving DecidableEq

/-- What one handler run did: its terminal outcome, whether the `sf.write`
call was reached (`wavCreated`), which of this run's two files remain on
disk when the run ends (`wavOnDisk`, `mp3OnDisk`), whether the
`subprocess.run` transcoding call was reached (`transcodeInvoked`),
whether the `os.remove` deletion call was reached (`removeCalled`), and
the list of `send_file` calls made. -/
structure RunResult where
  outcome : Outcome
  wavCreated : Bool
  wavOnDisk : Bool
  mp3OnDisk : Bool
  transcodeInvoked : Bool
  removeCalled : Bool
  deliveries : List Delivery
  deriving DecidableEq

/-- `AUDIO_OUTPUT_DIR` from line 27 of the source. -/
def AUDIO_OUTPUT_DIR : String := "generated_audio"

/-- `CHANNELS_TO_MONITOR` from line 21 of the source. -/
def CHANNELS_TO_MONITOR : List Int := [-1001114591086]

/-- Python `int()` truncation toward zero, applied to the `time.time()`
value (a non-negative real in practice, modelled as a rational):
truncating integer division of the numerator by the denominator. -/
def pyInt (t : ℚ) : Int := t.num.tdiv (t.den : Int)

/-- Line 95 of the source:
`base_filename = f"msg_{abs(chat_id)}_{message_id}_{int(time.time())}"`. -/
def base_filename (chatId : Int) (messageId : Nat) (t : ℚ) : String :=
  "msg_" ++ toString chatId.natAbs ++ "_" ++ toString messageId ++ "_"
    ++ toString (pyInt t)

/-- Line 96: the WAV path `os.path.join(AUDIO_OUTPUT_DIR, base + ".wav")`.
`os.path.abspath` prefixes the fixed working directory, a fixed injective
prefix that is irrelevant to path equality, so it is omitted. -/
def wav_filepath (chatId : Int) (messageId : Nat) (t : ℚ) : String :=
  AUDIO_OUTPUT_DIR ++ "/" ++ base_filename chatId messageId t ++ ".wav"

/-- Line 97: the MP3 path `os.path.join(AUDIO_OUTPUT_DIR, base + ".mp3")`. -/
def mp3_filepath (chatId : Int) (messageId : Nat) (t : ℚ) : String :=
  AUDIO_OUTPUT_DIR ++ "/" ++ base_filename chatId messageId t ++ ".mp3"

/-- Lines 66-72 of the source: `chat_title` starts as `"Unknown"`; if
`get_entity` succeeds it becomes
`getattr(chat_entity, 'title', getattr(chat_entity, 'username', str(chat_id)))`;
if `get_entity` raises, the exception is logged and `"Unknown"` stands. -/
def resolveChatTitle (chatId : Int) (entity : Option Entity) : String :=
  match entity with
  | none => "Unknown"
  | some e =>
    match e.title with
    | some t => t
    | none =>
      match e.username with
      | some u => u
      | none => toString chatId

/-- Line 153 of the source:
`caption=f"Audio from channel '{chat_title}' (Message #{message_id})"`. -/
def sendCaption (chatTitle : String) (messageId : Nat) : String :=
  "Audio from channel \x27" ++ chatTitle ++ "\x27 (Message #"
    ++ toString messageId ++ ")"

/-- A run that made no file and no delivery call (the early-return paths
before `sf.write`). -/
def noFiles (o : Outcome) : RunResult :=
  { outcome := o, wavCreated := false, wavOnDisk := false, mp3OnDisk := false,
    transcodeInvoked := false, removeCalled := false, deliveries := [] }

/-- The body of `handler_new_message` (lines 63-156 of the source) as a
pure function of the event identity and the environment.  The control flow
mirrors the source: resolve the chat title (failures only logged), skip
messages with falsy text, run TTS (the surrounding `try` catches a raise),
reject an empty squeezed buffer, write the WAV, re-check existence, verify
with `wave.open`, check read permission, run FFmpeg (distinguishing
`FileNotFoundError` from `CalledProcessError`), delete the WAV (failure
only logged), and finally resolve the target and send the MP3.  A tool
failure is modelled as leaving no delivery-format file behind. -/
def handler_new_message (ev : EventInfo) (env : Env) : RunResult :=
  let chat_title := resolveChatTitle ev.chatId env.entity
  match env.text with
  | none => noFiles .skippedNoText
  | some message_text =>
    if message_text = "" then noFiles .skippedNoText
    else
      match env.tts with
      | .raises => noFiles .failedSynthesis
      | .ok samples _samplingRate =>
        if samples.isEmpty then noFiles .failedEmptyOutput
        else
          let mp3 := mp3_filepath ev.chatId ev.messageId env.time
          -- sf.write(wav_filepath, ...); time.sleep(1)
          if env.fileExistsAfterWrite = false then
            { outcome := .failedWriteMissing, wavCreated := true,
              wavOnDisk := false, mp3OnDisk := false,
              transcodeInvoked := false, removeCalled := false,
              deliveries := [] }
          else if env.waveOpenOk = false then
            { outcome := .failedWaveOpen, wavCreated := true,
              wavOnDisk := true, mp3OnDisk := false,
              transcodeInvoked := false, removeCalled := false,
              deliveries := [] }
          else if env.readable = false then
            { outcome := .failedPermission, wavCreated := true,
              wavOnDisk := true, mp3OnDisk := false,
              transcodeInvoked := false, removeCalled := false,
              deliveries := [] }
          else
            match env.ffmpeg with
            | .notFound =>
              { outcome := .failedToolNotFound, wavCreated := true,
                wavOnDisk := true, mp3OnDisk := false,
                transcodeInvoked := true, removeCalled := false,
                deliveries := [] }
            | .fails stderr =>
              { outcome := .failedToolExec stderr, wavCreated := true,
                wavOnDisk := true, mp3OnDisk := false,
                transcodeInvoked := true, removeCalled := false,
                deliveries := [] }
            | .ok =>
              -- os.remove(wav_filepath): an exception is caught and logged
              let wavLeft := env.removeOk = false
              if env.targetResolves then
                if env.sendFileOk then
                  { outcome := .delivered, wavCreated := true,
                    wavOnDisk := wavLeft, mp3OnDisk := true,
                    transcodeInvoked := true, removeCalled := true,
                    deliveries := [⟨mp3, sendCaption chat_title ev.messageId⟩] }
                else
                  { outcome := .failedSend, wavCreated := true,
                    wavOnDisk := wavLeft, mp3OnDisk := true,
                    transcodeInvoked := true, removeCalled := true,
                    deliveries := [⟨mp3, sendCaption chat_title ev.messageId⟩] }
              else
                { outcome := .failedSend, wavCreated := true,
                  wavOnDisk := wavLeft, mp3OnDisk := true,
                  transcodeInvoked := true, removeCalled := true,
                  deliveries := [] }

/-- The event loop dispatching each inbound event to the handler: each
handler run returns normally (its failures are internal early returns), so
every event in the stream is processed. -/
def processEvents (evs : List (EventInfo × Env)) : List RunResult :=
  evs.map (fun p => handler_new_message p.1 p.2)

/-- Outcome of the FFmpeg startup probe
`subprocess.run([FFMPEG_PATH, "-version"], ..., check=True)` on
lines 186-191 of the source, one constructor per `except` arm. -/
inductive ToolCheckResult where
  | fileNotFound
  | calledProcessError
  | otherError
  | ok
  deriving DecidableEq

/-- What the process start does: the exit status it terminates with,
whether `client.start` (the Telegram connection) was reached, and whether
`client.run_until_disconnected` (the event loop) was entered. -/
structure StartupResult where
  exitCode : Nat
  clientStarted : Bool
  eventLoopEntered : Bool
  deriving DecidableEq

/-- The `__main__` block (lines 183-211) plus `main` (lines 160-181): a
failed FFmpeg probe calls `exit(1)` before `asyncio.run(main())`;
otherwise `main` starts the client, and if the channel list is empty it
logs an error and returns, so `asyncio.run` completes and the process ends
with status 0 without entering the event loop; with a non-empty list it
runs the event loop until disconnect and also ends with status 0. -/
def startup (tool : ToolCheckResult) (channels : List Int) : StartupResult :=
  match tool with
  | .fileNotFound => { exitCode := 1, clientStarted := false, eventLoopEntered := false }
  | .calledProcessError => { exitCode := 1, clientStarted := false, eventLoopEntered := false }
  | .otherError => { exitCode := 1, clientStarted := false, eventLoopEntered := false }
  | .ok =>
    if channels.isEmpty then
      { exitCode := 0, clientStarted := true, eventLoopEntered := false }
    else
      { exitCode := 0, clientStarted := true, eventLoopEntered := true }

/-- `s` contains `sub` as a contiguous substring. -/
def strContains (s sub : String) : Prop := ∃ p q, s = p ++ sub ++ q

/-- A concrete environment in which every external call succeeds. -/
def envAllOk : Env :=
  { entity := some ⟨some "News Channel", none⟩, text := some "hello",
    tts := .ok [1, 0] 16000, time := Rat.divInt 41 4,
    fileExistsAfterWrite := true, waveOpenOk := true, readable := true,
    ffmpeg := .ok, removeOk := true, targetResolves := true, sendFileOk := true }

/-- A concrete event identity. -/
def ev0 : EventInfo := ⟨-100, 5⟩

/-- String append is associative (via the underlying character lists). -/
theorem str_append_assoc (a b c : String) : a ++ b ++ c = a ++ (b ++ c) := by
  apply String.ext
  simp [String.data_append]

/-- The caption built on line 153 contains the chat title as a substring. -/
theorem sendCaption_contains_title (t : String) (m : Nat) :
    strContains (sendCaption t m) t := by
  refine ⟨"Audio from channel \x27",
    "\x27 (Message #" ++ toString m ++ ")", ?_⟩
  simp only [sendCaption, str_append_assoc]

/-- The caption built on line 153 contains the decimal message id as a
substring. -/
theorem sendCaption_contains_id (t : String) (m : Nat) :
    strContains (sendCaption t m) (toString m) := by
  refine ⟨"Audio from channel \x27" ++ t ++ "\x27 (Message #", ")", ?_⟩
  simp only [sendCaption, str_append_assoc]

/-- Claim C9: the derived base filename uses the absolute value of the
channel id, so a nonzero channel id and its negation — two distinct
channel identities — produce the same base name (and the same WAV path)
for equal message ids and timestamps: the naming scheme is not injective
in the channel identity. -/
theorem c9_abs_channel_collision (c : Int) (m : Nat) (t : ℚ) (hc : c ≠ 0) :
    c ≠ -c ∧ base_filename c m t = base_filename (-c) m t ∧
      wav_filepath c m t = wav_filepath (-c) m t := by
  refine ⟨by omega, ?_, ?_⟩ <;>
    simp [base_filename, wav_filepath, Int.natAbs_neg]

/-- Witness for C9 at channel id 7. -/
theorem c9_abs_channel_collision_witness :
    (7 : Int) ≠ -7 ∧ base_filename 7 3 5 = base_filename (-7) 3 5 ∧
      wav_filepath 7 3 5 = wav_filepath (-7) 3 5 :=
  c9_abs_channel_collision 7 3 5 (by decide)

/-- Claim C2 counterexample: two runs on the same channel id (-100) and
message id (5) whose `time.time()` values 10+1/4 and 10+3/4 are distinct
but fall within the same second receive the SAME intermediate file path,
refuting the claimed no-collision property of the naming scheme. -/
theorem c2_counterexample :
    Rat.divInt 41 4 ≠ Rat.divInt 43 4 ∧
      wav_filepath (-100) 5 (Rat.divInt 41 4)
        = wav_filepath (-100) 5 (Rat.divInt 43 4) := by
  constructor
  · decide
  · decide

/-- Claim C2 (amended): the time component of the derived name is the
whole-second truncation of `time.time()`, so two runs on the same channel
id and message id whose creation times fall in the same second produce
the SAME intermediate (and delivery) file path — the naming scheme does
not separate such runs. -/
theorem c2_same_second_same_path (c : Int) (m : Nat) (t₁ t₂ : ℚ)
    (h : pyInt t₁ = pyInt t₂) :
    wav_filepath c m t₁ = wav_filepath c m t₂ ∧
      mp3_filepath c m t₁ = mp3_filepath c m t₂ := by
  constructor <;> simp [wav_filepath, mp3_filepath, base_filename, h]

/-- Witness for C2 (amended) at two distinct times inside one second. -/
theorem c2_same_second_same_path_witness :
    wav_filepath (-100) 5 (Rat.divInt 41 4)
        = wav_filepath (-100) 5 (Rat.divInt 43 4) ∧
      mp3_filepath (-100) 5 (Rat.divInt 41 4)
        = mp3_filepath (-100) 5 (Rat.divInt 43 4) :=
  c2_same_second_same_path (-100) 5 (Rat.divInt 41 4) (Rat.divInt 43 4)
    (by decide)

/-- Claim C3 counterexample: with a resolvable transcoding tool and an
empty channel list, the process connects the client and then terminates
with exit status 0 — not the claimed non-zero status. -/
theorem c3_counterexample :
    (startup .ok []).exitCode = 0 ∧ (startup .ok []).clientStarted = true := by
  decide

/-- Claim C3 (amended): the process terminates with a non-zero exit
status, before connecting or subscribing, exactly when the transcoding
tool probe fails; an empty channel list does not produce a non-zero exit:
the client is started, an error is logged, and the process ends with
status 0 without entering the event loop. -/
theorem c3_startup_exit (tool : ToolCheckResult) (channels : List Int) :
    ((startup tool channels).exitCode ≠ 0 ↔ tool ≠ .ok) ∧
    (tool ≠ .ok → (startup tool channels).clientStarted = false ∧
      (startup tool channels).eventLoopEntered = false) ∧
    (channels = [] → (startup tool channels).eventLoopEntered = false) := by
  rcases tool <;> rcases channels with _ | ⟨c, cs⟩ <;> simp [startup]

/-- Witness for C3 (amended): an unresolvable tool with the repository's
configured channel list exits non-zero without starting the client. -/
theorem c3_startup_exit_witness :
    (startup .fileNotFound CHANNELS_TO_MONITOR).exitCode ≠ 0 ∧
      (startup .fileNotFound CHANNELS_TO_MONITOR).clientStarted = false :=
  ⟨(c3_startup_exit .fileNotFound CHANNELS_TO_MONITOR).1.mpr (by decide),
   ((c3_startup_exit .fileNotFound CHANNELS_TO_MONITOR).2.1 (by decide)).1⟩

/-- Claim C7: when synthesis yields a zero-length sample sequence after
normalizing to one dimension, the run aborts with the empty-output failure
before any file is created (the write call is never reached, nothing is on
disk, no delivery is made), and the event loop still processes every
subsequent message. -/
theorem c7_empty_output (ev : EventInfo) (env : Env) (txt : String) (sr : Int)
    (htext : env.text = some txt) (hne : txt ≠ "")
    (htts : env.tts = .ok [] sr) :
    (handler_new_message ev env).outcome = .failedEmptyOutput ∧
    (handler_new_message ev env).wavCreated = false ∧
    (handler_new_message ev env).wavOnDisk = false ∧
    (handler_new_message ev env).mp3OnDisk = false ∧
    (handler_new_message ev env).deliveries = [] ∧
    ∀ rest : List (EventInfo × Env),
      processEvents ((ev, env) :: rest)
        = handler_new_message ev env :: processEvents rest := by
  refine ⟨?_, ?_, ?_, ?_, ?_, fun rest => rfl⟩ <;>
    simp [handler_new_message, htext, hne, htts, noFiles]

/-- Witness for C7: empty TTS output in an otherwise healthy environment. -/
theorem c7_empty_output_witness :
    (handler_new_message ev0 { envAllOk with tts := .ok [] 16000 }).outcome
      = .failedEmptyOutput ∧
    (handler_new_message ev0
      { envAllOk with tts := .ok [] 16000 }).wavCreated = false := by
  have h := c7_empty_output ev0 { envAllOk with tts := .ok [] 16000 }
    "hello" 16000 rfl (by decide) rfl
  exact ⟨h.1, h.2.1⟩

/-- Claim C5: after the WAV is written, the run verifies it: if the file
is absent after the write returns, or reopening it as a WAV container
fails, or it lacks read permission, the run fails at that check and the
transcoding `subprocess.run` call is never reached. -/
theorem c5_write_verification (ev : EventInfo) (env : Env) (txt : String)
    (a : ℚ) (as : List ℚ) (sr : Int)
    (htext : env.text = some txt) (hne : txt ≠ "")
    (htts : env.tts = .ok (a :: as) sr) :
    (env.fileExistsAfterWrite = false →
      (handler_new_message ev env).outcome = .failedWriteMissing ∧
      (handler_new_message ev env).transcodeInvoked = false) ∧
    (env.fileExistsAfterWrite = true → env.waveOpenOk = false →
      (handler_new_message ev env).outcome = .failedWaveOpen ∧
      (handler_new_message ev env).transcodeInvoked = false) ∧
    (env.fileExistsAfterWrite = true → env.waveOpenOk = true →
      env.readable = false →
      (handler_new_message ev env).outcome = .failedPermission ∧
      (handler_new_message ev env).transcodeInvoked = false) := by
  refine ⟨fun h1 => ?_, fun h1 h2 => ?_, fun h1 h2 h3 => ?_⟩ <;>
    simp [handler_new_message, htext, hne, htts, noFiles, *]

/-- Witness for C5: the read-back `wave.open` check fails. -/
theorem c5_write_verification_witness :
    (handler_new_message ev0 { envAllOk with waveOpenOk := false }).outcome
      = .failedWaveOpen ∧
    (handler_new_message ev0
      { envAllOk with waveOpenOk := false }).transcodeInvoked = false :=
  (c5_write_verification ev0 { envAllOk with waveOpenOk := false }
    "hello" 1 [0] 16000 rfl (by decide) rfl).2.1 rfl rfl

/-- Claim C6: the transcoding stage distinguishes its two failure kinds —
an unresolvable tool path fails the run as tool-not-found, a non-zero tool
exit fails it as tool-execution carrying the tool's standard error — and
in both cases the later stages (WAV deletion, delivery) are not attempted
and no delivery-format file results. -/
theorem c6_transcode_failures (ev : EventInfo) (env : Env) (txt : String)
    (a : ℚ) (as : List ℚ) (sr : Int)
    (htext : env.text = some txt) (hne : txt ≠ "")
    (htts : env.tts = .ok (a :: as) sr)
    (hfe : env.fileExistsAfterWrite = true) (hwo : env.waveOpenOk = true)
    (hrd : env.readable = true) :
    (env.ffmpeg = .notFound →
      (handler_new_message ev env).outcome = .failedToolNotFound ∧
      (handler_new_message ev env).removeCalled = false ∧
      (handler_new_message ev env).deliveries = [] ∧
      (handler_new_message ev env).mp3OnDisk = false) ∧
    (∀ s, env.ffmpeg = .fails s →
      (handler_new_message ev env).outcome = .failedToolExec s ∧
      (handler_new_message ev env).removeCalled = false ∧
      (handler_new_message ev env).deliveries = [] ∧
      (handler_new_message ev env).mp3OnDisk = false) := by
  refine ⟨fun hff => ?_, fun s hff => ?_⟩ <;>
    simp [handler_new_message, htext, hne, htts, hfe, hwo, hrd, hff, noFiles]

/-- Witness for C6: the tool exits non-zero with diagnostic "boom". -/
theorem c6_transcode_failures_witness :
    (handler_new_message ev0 { envAllOk with ffmpeg := .fails "boom" }).outcome
      = .failedToolExec "boom" ∧
    (handler_new_message ev0
      { envAllOk with ffmpeg := .fails "boom" }).deliveries = [] := by
  have h := (c6_transcode_failures ev0 { envAllOk with ffmpeg := .fails "boom" }
    "hello" 1 [0] 16000 rfl (by decide) rfl rfl rfl rfl).2 "boom" rfl
  exact ⟨h.1, h.2.2.1⟩

/-- Claim C8: a failure of the WAV deletion after a successful transcoding
does not fail the run — the error is only logged, the WAV remains on disk,
and the pipeline still delivers the MP3. -/
theorem c8_remove_failure_still_delivers (ev : EventInfo) (env : Env)
    (txt : String) (a : ℚ) (as : List ℚ) (sr : Int)
    (htext : env.text = some txt) (hne : txt ≠ "")
    (htts : env.tts = .ok (a :: as) sr)
    (hfe : env.fileExistsAfterWrite = true) (hwo : env.waveOpenOk = true)
    (hrd : env.readable = true) (hff : env.ffmpeg = .ok)
    (hrm : env.removeOk = false)
    (htr : env.targetResolves = true) (hsf : env.sendFileOk = true) :
    (handler_new_message ev env).outcome = .delivered ∧
    (handler_new_message ev env).deliveries.length = 1 ∧
    (handler_new_message ev env).mp3OnDisk = true ∧
    (handler_new_message ev env).wavOnDisk = true := by
  refine ⟨?_, ?_, ?_, ?_⟩ <;>
    simp [handler_new_message, htext, hne, htts, hfe, hwo, hrd, hff, hrm,
      htr, hsf, noFiles]

/-- Witness for C8: deletion fails in an otherwise fully successful run. -/
theorem c8_remove_failure_still_delivers_witness :
    (handler_new_message ev0 { envAllOk with removeOk := false }).outcome
      = .delivered ∧
    (handler_new_message ev0
      { envAllOk with removeOk := false }).wavOnDisk = true := by
  have h := c8_remove_failure_still_delivers ev0
    { envAllOk with removeOk := false } "hello" 1 [0] 16000
    rfl (by decide) rfl rfl rfl rfl rfl rfl rfl rfl
  exact ⟨h.1, h.2.2.2⟩

/-- Claim C4: a pipeline run in which every stage succeeds end to end
terminates delivered, leaves no intermediate WAV on disk, leaves exactly
one delivery-format MP3, and makes exactly one delivery call whose caption
contains the source channel title and the message id. -/
theorem c4_success_run (ev : EventInfo) (env : Env)
    (txt : String) (a : ℚ) (as : List ℚ) (sr : Int)
    (htext : env.text = some txt) (hne : txt ≠ "")
    (htts : env.tts = .ok (a :: as) sr)
    (hfe : env.fileExistsAfterWrite = true) (hwo : env.waveOpenOk = true)
    (hrd : env.readable = true) (hff : env.ffmpeg = .ok)
    (hrm : env.removeOk = true)
    (htr : env.targetResolves = true) (hsf : env.sendFileOk = true) :
    (handler_new_message ev env).outcome = .delivered ∧
    (handler_new_message ev env).wavOnDisk = false ∧
    (handler_new_message ev env).mp3OnDisk = true ∧
    (handler_new_message ev env).deliveries
      = [⟨mp3_filepath ev.chatId ev.messageId env.time,
          sendCaption (resolveChatTitle ev.chatId env.entity) ev.messageId⟩] ∧
    (handler_new_message ev env).deliveries.length = 1 ∧
    strContains
      (sendCaption (resolveChatTitle ev.chatId env.entity) ev.messageId)
      (resolveChatTitle ev.chatId env.entity) ∧
    strContains
      (sendCaption (resolveChatTitle ev.chatId env.entity) ev.messageId)
      (toString ev.messageId) := by
  refine ⟨?_, ?_, ?_, ?_, ?_,
    sendCaption_contains_title _ _, sendCaption_contains_id _ _⟩ <;>
    simp [handler_new_message, htext, hne, htts, hfe, hwo, hrd, hff, hrm,
      htr, hsf, noFiles]

/-- Witness for C4: the all-successful environment. -/
theorem c4_success_run_witness :
    (handler_new_message ev0 envAllOk).outcome = .delivered ∧
    (handler_new_message ev0 envAllOk).wavOnDisk = false ∧
    (handler_new_message ev0 envAllOk).mp3OnDisk = true ∧
    (handler_new_message ev0 envAllOk).deliveries.length = 1 := by
  have h := c4_success_run ev0 envAllOk "hello" 1 [0] 16000
    rfl (by decide) rfl rfl rfl rfl rfl rfl rfl rfl
  exact ⟨h.1, h.2.1, h.2.2.1, h.2.2.2.2.1⟩

/-- Claim C10: failing to resolve the source channel title never aborts a
run — the run's outcome is independent of the entity-resolution result;
the fallback title is the entity's username when there is no title, the
id rendered as a string when there is neither, and "Unknown" when the
lookup itself raises; and that fallback is the title used in the delivery
caption. -/
theorem c10_title_fallback :
    (∀ (ev : EventInfo) (env : Env) (e₁ e₂ : Option Entity),
      (handler_new_message ev { env with entity := e₁ }).outcome
        = (handler_new_message ev { env with entity := e₂ }).outcome) ∧
    (∀ c : Int, resolveChatTitle c none = "Unknown") ∧
    (∀ (c : Int) (u : String), resolveChatTitle c (some ⟨none, some u⟩) = u) ∧
    (∀ c : Int, resolveChatTitle c (some ⟨none, none⟩) = toString c) ∧
    (∀ (ev : EventInfo) (env : Env) (txt : String) (a : ℚ) (as : List ℚ)
        (sr : Int),
      env.entity = none → env.text = some txt → txt ≠ "" →
      env.tts = .ok (a :: as) sr → env.fileExistsAfterWrite = true →
      env.waveOpenOk = true → env.readable = true → env.ffmpeg = .ok →
      env.targetResolves = true →
      (handler_new_message ev env).deliveries
        = [⟨mp3_filepath ev.chatId ev.messageId env.time,
            sendCaption "Unknown" ev.messageId⟩]) := by
  refine ⟨?_, fun c => rfl, fun c u => rfl, fun c => rfl, ?_⟩
  · intro ev env e₁ e₂
    rcases env with ⟨ent, text, tts, time, fex, wo, rd, ff, rok, tr, sf⟩
    rcases text with _ | txt
    · rfl
    · rcases tts with _ | ⟨samples, sr⟩
      · simp [handler_new_message, noFiles]
      · by_cases htxt : txt = ""
        · simp [handler_new_message, htxt, noFiles]
        · by_cases hs : samples.isEmpty <;>
          rcases fex <;> rcases wo <;> rcases rd <;> rcases ff <;>
          rcases tr <;> rcases sf <;>
            simp [handler_new_message, htxt, hs, noFiles]
  · intro ev env txt a as sr hent htext hne htts hfe hwo hrd hff htr
    by_cases hsf : env.sendFileOk = true <;>
      simp [handler_new_message, htext, hne, htts, hfe, hwo, hrd, hff, htr,
        hsf, hent, resolveChatTitle, noFiles]

/-- Witness for C10: the entity lookup raises during an otherwise
successful run; the caption carries the "Unknown" fallback title. -/
theorem c10_title_fallback_witness :
    (handler_new_message ev0 { envAllOk with entity := none }).deliveries
      = [⟨mp3_filepath ev0.chatId ev0.messageId (Rat.divInt 41 4),
          sendCaption "Unknown" ev0.messageId⟩] :=
  c10_title_fallback.2.2.2.2 ev0 { envAllOk with entity := none }
    "hello" 1 [0] 16000 rfl rfl (by decide) rfl rfl rfl rfl rfl rfl

/-- Claim C1 counterexample: a run in which the WAV is written and
verified but the transcoding tool then exits non-zero ends with the
intermediate WAV still on disk — the code only deletes the WAV on the
success path, so the claimed cleanup-on-failure invariant does not hold. -/
theorem c1_counterexample :
    (handler_new_message ev0
      { envAllOk with ffmpeg := .fails "oops" }).wavCreated = true ∧
    (handler_new_message ev0
      { envAllOk with ffmpeg := .fails "oops" }).outcome
        = .failedToolExec "oops" ∧
    (handler_new_message ev0
      { envAllOk with ffmpeg := .fails "oops" }).wavOnDisk = true := by
  decide

/-- Claim C1 (amended): a pipeline run that reaches the Written state and
then fails at read-back verification, the permission check, or the
transcoding stage does NOT delete the intermediate WAV: the deletion call
is never reached and the file remains on disk when the run ends (deletion
happens only after a successful transcoding). -/
theorem c1_failure_after_written_leaves_wav (ev : EventInfo) (env : Env)
    (txt : String) (a : ℚ) (as : List ℚ) (sr : Int)
    (htext : env.text = some txt) (hne : txt ≠ "")
    (htts : env.tts = .ok (a :: as) sr)
    (hfe : env.fileExistsAfterWrite = true)
    (h : env.waveOpenOk = false ∨ env.readable = false ∨
         env.ffmpeg = .notFound ∨ ∃ s, env.ffmpeg = .fails s) :
    (handler_new_message ev env).wavCreated = true ∧
    (handler_new_message ev env).wavOnDisk = true ∧
    (handler_new_message ev env).removeCalled = false ∧
    (handler_new_message ev env).outcome ≠ .delivered := by
  rcases h with h | h | h | ⟨s, h⟩ <;>
    cases hwo : env.waveOpenOk <;> cases hrd : env.readable <;>
      simp_all [handler_new_message, noFiles]

/-- Witness for C1 (amended): the tool-execution failure leaves the WAV. -/
theorem c1_failure_after_written_leaves_wav_witness :
    (handler_new_message ev0
      { envAllOk with ffmpeg := .fails "nope" }).wavOnDisk = true ∧
    (handler_new_message ev0
      { envAllOk with ffmpeg := .fails "nope" }).removeCalled = false := by
  have h := c1_failure_after_written_leaves_wav ev0
    { envAllOk with ffmpeg := .fails "nope" } "hello" 1 [0] 16000
    rfl (by decide) rfl rfl (Or.inr (Or.inr (Or.inr ⟨"nope", rfl⟩)))
  exact ⟨h.2.1, h.2.2.1⟩

end AudioDictor
